import Mathlib

/-!
Shallow embedding of `ham/genome.py` (pyham): the `Genome` abstract base
class, its `AncestralGenome` and `ExtantGenome` variants, and the external
collaborator contracts they consume (ete3 tree nodes, `AbstractGene`).

Python objects are modelled by Lean structures carrying an explicit `id`
field standing for object identity; stateful methods become functions from
a state to a `StepResult` that carries both the outcome (normal return or
raised exception) and the post-state, since Python exceptions leave the
mutated state visible to the caller.
-/

/-- Modelled from the spec: an ete3 tree node, the taxonomy collaborator.
`ete3.coretype.tree.TreeNode` is external to this unit; per the spec the
taxonomy collaborator supplies only a capability check and node equality.
`TreeNode` does not override Python equality, so `==`/`!=` compare object
identity, modelled here by the `id` field; `value` stands for the node's
payload (name, branch data), irrelevant to Python equality. -/
structure TreeNode where
  id : Nat
  value : String
deriving DecidableEq, Repr

/-- Modelled from the spec: the gene collaborator
(`ham.abstractgene.AbstractGene`, a module of this repository that is not
part of this unit). `id` models object identity; `descendantGenes` is the
value its all-descendant-extant-genes query returns (opaque to this core,
recorded as a list of extant-gene identities); `singleton` is the value of
its is-singleton predicate; `setGenomeRaises` models whether its
`set_genome` mutator raises when called; `genome` is the non-owning
back-reference to the owning genome, written only by `Genome.add_gene`. -/
structure AbstractGene where
  id : Nat
  descendantGenes : List Nat
  singleton : Bool
  setGenomeRaises : Bool
  genome : Option Nat
deriving DecidableEq, Repr

/-- Exceptions this unit raises or propagates. -/
inductive PyError where
  | typeError (msg : String)
  | evolutionaryConceptError (msg : String)
  | collaboratorError
deriving DecidableEq, Repr

/-- Outcome of a stateful method call: a normal return with the post-state,
or a raised exception together with the (possibly already mutated)
post-state. -/
inductive StepResult (σ : Type) where
  | ok (s : σ)
  | raised (e : PyError) (s : σ)
deriving DecidableEq, Repr

/-- An argument passed to `add_gene`: either an object satisfying the
`AbstractGene` capability, or some other object carrying only its type
name (what `isinstance` rejects). -/
inductive PyObj where
  | gene (g : AbstractGene)
  | nonGene (typeName : String)
deriving DecidableEq, Repr

/-- An argument passed to `set_taxon`: either an ete3 tree node, or some
other object carrying only its type name. -/
inductive PyTax where
  | node (t : TreeNode)
  | nonNode (typeName : String)
deriving DecidableEq, Repr

/-- State of the `Genome` abstract base class: the fields set by
`Genome.__init__`, plus `selfId` modelling the identity of the genome
object itself (the target of gene back-references). -/
structure GenomeState where
  selfId : Nat
  genes : List AbstractGene
  taxon : Option TreeNode
  name : Option String
deriving DecidableEq, Repr

/-- `Genome.__init__`: genes empty, taxon and name unset. -/
def Genome.init (selfId : Nat) : GenomeState :=
  { selfId := selfId, genes := [], taxon := none, name := none }

/-- `Genome.add_gene`: reject non-genes with `TypeError`; otherwise append
the gene to `genes` and then call the gene's `set_genome` collaborator
mutator, which writes the back-reference (and whose possible failure is
modelled by `setGenomeRaises`). The append happens before `set_genome`, so
a raise from `set_genome` leaves the gene in the list. In Python the list
holds the very object that `set_genome` mutates, so on success the stored
element carries the updated back-reference. -/
def Genome.add_gene (s : GenomeState) (x : PyObj) : StepResult GenomeState :=
  match x with
  | .nonGene tn =>
      .raised (.typeError ("expect subclass obj of AbstractGene, got " ++ tn)) s
  | .gene g =>
      if g.setGenomeRaises then
        .raised .collaboratorError { s with genes := s.genes ++ [g] }
      else
        .ok { s with genes := s.genes ++ [{ g with genome := some s.selfId }] }

/-- `Genome.set_taxon`: reject non-tree-nodes with `TypeError`; raise
`EvolutionaryConceptError` when a taxon is already bound and the new node
compares unequal to it (Python `!=`, which for ete3 tree nodes is identity
inequality, i.e. `id` inequality here); otherwise assign it. -/
def Genome.set_taxon (s : GenomeState) (x : PyTax) : StepResult GenomeState :=
  match x with
  | .nonNode tn =>
      .raised (.typeError ("expect subclass obj of TreeNode, got " ++ tn)) s
  | .node t =>
      match s.taxon with
      | some t0 =>
          if t.id ≠ t0.id then
            .raised (.evolutionaryConceptError "only one taxon can refers to one genome") s
          else
            .ok { s with taxon := some t }
      | none => .ok { s with taxon := some t }

/-- `Genome.__str__`: returns the `name` attribute as it is. -/
def Genome.dunderStr (s : GenomeState) : Option String :=
  s.name

/-- Modelled from the spec: the Python built-in `str()` applied to a
genome. It calls `Genome.__str__` and demands a string; when `__str__`
yields `None` (name never assigned), `str()` raises `TypeError`. -/
def Genome.strConv (s : GenomeState) : Except PyError String :=
  match Genome.dunderStr s with
  | some n => .ok n
  | none => .error (.typeError "str returned non-string (type NoneType)")

/-- State of an `AncestralGenome`: the base-class state plus the lazily
computed `ancestral_clustering` cache. The mapping is a Python dict keyed
by HOG objects (identity-hashed), modelled as an insertion-ordered
association list. -/
structure AncestralGenomeState where
  base : GenomeState
  ancestral_clustering : Option (List (AbstractGene × List Nat))
deriving DecidableEq, Repr

/-- `AncestralGenome.__init__`: base init plus an unset cache. -/
def AncestralGenome.init (selfId : Nat) : AncestralGenomeState :=
  { base := Genome.init selfId, ancestral_clustering := none }

/-- Python-dict assignment `d[k] = v` for a dict keyed by object identity
(`id` field): overwrite in place when the key is present (keeping the
original key object and its position), append otherwise. -/
def dictInsert (d : List (AbstractGene × List Nat)) (k : AbstractGene) (v : List Nat) :
    List (AbstractGene × List Nat) :=
  match d with
  | [] => [(k, v)]
  | (k0, v0) :: rest =>
      if k0.id = k.id then (k0, v) :: rest
      else (k0, v0) :: dictInsert rest k v

/-- `AncestralGenome.get_ancestral_clustering`: lazy getter. On a cache
miss, start from an empty dict and, for each HOG in `genes` in order,
record the HOG paired with the result of its `get_all_descendant_genes`
query; store and return the dict. On a cache hit, return the cached dict
unchanged without touching `genes`. -/
def AncestralGenome.get_ancestral_clustering (s : AncestralGenomeState) :
    List (AbstractGene × List Nat) × AncestralGenomeState :=
  match s.ancestral_clustering with
  | some m => (m, s)
  | none =>
      let m := s.base.genes.foldl (fun d hog => dictInsert d hog hog.descendantGenes) []
      (m, { s with ancestral_clustering := some m })

/-- `AncestralGenome.get_number_genes`: `len(self.genes)`, unconditionally
(no singleton flag exists on this variant). -/
def AncestralGenome.get_number_genes (s : AncestralGenomeState) : Nat :=
  s.base.genes.length

/-- `AncestralGenome.add_gene`: the inherited `Genome.add_gene`, acting on
the base-class fields. -/
def AncestralGenome.add_gene (s : AncestralGenomeState) (x : PyObj) :
    StepResult AncestralGenomeState :=
  match Genome.add_gene s.base x with
  | .ok b => .ok { s with base := b }
  | .raised e b => .raised e { s with base := b }

/-- A sequence of `add_gene` calls on an ancestral genome, stopping at the
first raised exception. -/
def runAddGenes (s : AncestralGenomeState) : List PyObj → StepResult AncestralGenomeState
  | [] => .ok s
  | x :: xs =>
      match AncestralGenome.add_gene s x with
      | .ok s1 => runAddGenes s1 xs
      | .raised e s1 => .raised e s1

/-- State of an `ExtantGenome`: the base-class state (with `name` set by
the constructor) plus the NCBI `taxid`, stored verbatim and opaque. -/
structure ExtantGenomeState where
  base : GenomeState
  taxid : Nat
deriving DecidableEq, Repr

/-- `ExtantGenome.__init__`: base init, then `name` and `taxid` stored
verbatim. -/
def ExtantGenome.init (name : String) (NCBITaxId : Nat) (selfId : Nat) : ExtantGenomeState :=
  { base := { Genome.init selfId with name := some name }, taxid := NCBITaxId }

/-- `ExtantGenome.get_number_genes(singleton)`: `len(genes)` when the flag
is true; otherwise a counting loop over `genes` incrementing for each gene
whose is-singleton predicate is false. -/
def ExtantGenome.get_number_genes (s : ExtantGenomeState) (singleton : Bool) : Nat :=
  if singleton then s.base.genes.length
  else s.base.genes.foldl (fun nbr g => if !g.singleton then nbr + 1 else nbr) 0

/-- Python declares `def get_number_genes(self, singleton=True)`: the
default call passes `singleton=True`. -/
def ExtantGenome.get_number_genes_default (s : ExtantGenomeState) : Nat :=
  ExtantGenome.get_number_genes s true

/-! Helper lemmas. -/

/-- Inserting a fresh key (identity not present among the dict's keys)
appends the pair at the end. -/
theorem dictInsert_of_fresh (d : List (AbstractGene × List Nat)) (k : AbstractGene)
    (v : List Nat) (h : ∀ p ∈ d, p.1.id ≠ k.id) :
    dictInsert d k v = d ++ [(k, v)] := by
  induction d with
  | nil => rfl
  | cons p rest ih =>
      obtain ⟨k0, v0⟩ := p
      have hk0 : k0.id ≠ k.id := h (k0, v0) (List.mem_cons_self _ _)
      simp only [dictInsert, if_neg hk0, List.cons_append, List.cons.injEq, true_and]
      exact ih (fun q hq => h q (List.mem_cons_of_mem _ hq))

/-- Folding dict insertions over genes with pairwise-distinct identities,
none of which is already a key of the accumulator, appends the gene/result
pairs in iteration order. -/
theorem foldl_dictInsert_of_nodup (gs : List AbstractGene)
    (acc : List (AbstractGene × List Nat))
    (hacc : ∀ g ∈ gs, ∀ p ∈ acc, p.1.id ≠ g.id)
    (hnd : (gs.map AbstractGene.id).Nodup) :
    gs.foldl (fun d hog => dictInsert d hog hog.descendantGenes) acc =
      acc ++ gs.map (fun g => (g, g.descendantGenes)) := by
  induction gs generalizing acc with
  | nil => simp
  | cons g gs ih =>
      simp only [List.map_cons, List.nodup_cons, List.mem_map] at hnd
      obtain ⟨hgid, hnd'⟩ := hnd
      have hstep : dictInsert acc g g.descendantGenes = acc ++ [(g, g.descendantGenes)] :=
        dictInsert_of_fresh acc g g.descendantGenes
          (fun p hp => hacc g (List.mem_cons_self _ _) p hp)
      simp only [List.foldl_cons, hstep]
      rw [ih (acc ++ [(g, g.descendantGenes)])]
      · simp
      · intro g1 hg1 p hp
        rcases List.mem_append.mp hp with hp | hp
        · exact hacc g1 (List.mem_cons_of_mem _ hg1) p hp
        · simp only [List.mem_singleton] at hp
          subst hp
          intro hcontra
          exact hgid ⟨g1, hg1, hcontra.symm⟩
      · exact hnd'

/-- The counting loop of `ExtantGenome.get_number_genes(singleton=False)`
computes the accumulator plus the number of non-singleton genes. -/
theorem foldl_nonsingleton_count (gs : List AbstractGene) (acc : Nat) :
    gs.foldl (fun nbr g => if !g.singleton then nbr + 1 else nbr) acc =
      acc + gs.countP (fun g => !g.singleton) := by
  induction gs generalizing acc with
  | nil => simp
  | cons g gs ih =>
      simp only [List.foldl_cons, List.countP_cons]
      rw [ih]
      cases hg : g.singleton
      all_goals simp [hg]
      all_goals omega

/-- A successful `add_gene` grows `genes` by exactly the given gene (with
its back-reference written). -/
theorem add_gene_ok_genes (s : GenomeState) (x : PyObj) (s1 : GenomeState)
    (h : Genome.add_gene s x = .ok s1) :
    ∃ g, x = .gene g ∧ g.setGenomeRaises = false ∧
      s1 = { s with genes := s.genes ++ [{ g with genome := some s.selfId }] } := by
  cases x with
  | nonGene tn => simp [Genome.add_gene] at h
  | gene g =>
      refine ⟨g, rfl, ?_, ?_⟩ <;>
        · by_cases hr : g.setGenomeRaises = true <;>
            simp [Genome.add_gene, hr] at h ⊢ <;> simp [h]

/-- A successful run of `add_gene` calls grows `genes` by one element per
call. -/
theorem runAddGenes_ok_length (xs : List PyObj) (s s1 : AncestralGenomeState)
    (h : runAddGenes s xs = .ok s1) :
    s1.base.genes.length = s.base.genes.length + xs.length := by
  induction xs generalizing s with
  | nil =>
      simp only [runAddGenes] at h
      cases h
      simp
  | cons x xs ih =>
      simp only [runAddGenes] at h
      cases hstep : AncestralGenome.add_gene s x with
      | raised e s2 => rw [hstep] at h; cases h
      | ok s2 =>
          rw [hstep] at h
          have hlen : s2.base.genes.length = s.base.genes.length + 1 := by
            cases hb : Genome.add_gene s.base x with
            | raised e b => simp [AncestralGenome.add_gene, hb] at hstep
            | ok b =>
                simp only [AncestralGenome.add_gene, hb] at hstep
                cases hstep
                obtain ⟨g, hx, hr, hb1⟩ := add_gene_ok_genes s.base x b hb
                simp [hb1]
          have := ih s2 h
          simp only [List.length_cons]
          omega

/-! Concrete sample values used to instantiate the theorems. -/

/-- Sample gene: non-singleton, two descendant extant genes. -/
def gA : AbstractGene := ⟨1, [10, 11], false, false, none⟩

/-- Sample gene: singleton, one descendant extant gene. -/
def gB : AbstractGene := ⟨2, [12], true, false, none⟩

/-- Sample gene: non-singleton, no descendants. -/
def gC : AbstractGene := ⟨3, [], false, false, none⟩

/-- Sample gene whose `set_genome` collaborator call raises. -/
def gRaise : AbstractGene := ⟨4, [], false, true, none⟩

/-- Sample extant genome holding `[gA, gB, gC]`. -/
def wExtant : ExtantGenomeState :=
  { base := { selfId := 0, genes := [gA, gB, gC], taxon := none, name := some "E" },
    taxid := 9606 }

/-- Sample ancestral genome holding `[gA, gB]`, cache unset. -/
def wAncestral : AncestralGenomeState :=
  { base := { selfId := 0, genes := [gA, gB], taxon := none, name := none },
    ancestral_clustering := none }

/-! Claim theorems. -/

/-- C1: for an `AncestralGenome` whose clustering cache is not yet
populated, the first call to `get_ancestral_clustering` builds and returns
the mapping that pairs every gene in `genes`, in attachment order, with
the result of that gene's all-descendant-extant-genes query; when `genes`
is empty the returned mapping is empty. (Distinct list entries are
distinct HOG objects, so their identities are pairwise distinct.) -/
theorem C1_ancestral_clustering_first_call (s : AncestralGenomeState)
    (hc : s.ancestral_clustering = none)
    (hnd : (s.base.genes.map AbstractGene.id).Nodup) :
    (AncestralGenome.get_ancestral_clustering s).1 =
      s.base.genes.map (fun g => (g, g.descendantGenes)) ∧
    (s.base.genes = [] → (AncestralGenome.get_ancestral_clustering s).1 = []) := by
  have hfold := foldl_dictInsert_of_nodup s.base.genes [] (by simp) hnd
  constructor
  · simp [AncestralGenome.get_ancestral_clustering, hc, hfold]
  · intro he
    simp [AncestralGenome.get_ancestral_clustering, hc, he]

/-- Witness for C1: a two-HOG ancestral genome yields the two expected
pairs in attachment order; an empty one yields the empty mapping. -/
theorem C1_witness :
    wAncestral.ancestral_clustering = none ∧
    (wAncestral.base.genes.map AbstractGene.id).Nodup ∧
    (AncestralGenome.get_ancestral_clustering wAncestral).1 =
      [(gA, [10, 11]), (gB, [12])] ∧
    (AncestralGenome.get_ancestral_clustering (AncestralGenome.init 7)).1 = [] := by
  refine ⟨rfl, by decide, ?_, ?_⟩
  · exact (C1_ancestral_clustering_first_call wAncestral rfl (by decide)).1
  · exact (C1_ancestral_clustering_first_call (AncestralGenome.init 7) rfl (by decide)).2 rfl

/-- C2: any call to `get_ancestral_clustering` leaves the returned mapping
stored in the cache, and a subsequent call — with `genes` replaced by any
list whatsoever, in particular with a new gene appended — returns exactly
that cached mapping and leaves the state untouched, performing no
recomputation. (Object identity of the returned mapping is rendered in
this value-semantics embedding as: the call returns the stored cache field
as is and does not rebuild it.) -/
theorem C2_ancestral_clustering_cached (s : AncestralGenomeState)
    (genes1 : List AbstractGene) :
    (AncestralGenome.get_ancestral_clustering s).2.ancestral_clustering =
      some (AncestralGenome.get_ancestral_clustering s).1 ∧
    AncestralGenome.get_ancestral_clustering
        { (AncestralGenome.get_ancestral_clustering s).2 with
          base := { (AncestralGenome.get_ancestral_clustering s).2.base with
                    genes := genes1 } } =
      ((AncestralGenome.get_ancestral_clustering s).1,
       { (AncestralGenome.get_ancestral_clustering s).2 with
         base := { (AncestralGenome.get_ancestral_clustering s).2.base with
                   genes := genes1 } }) := by
  cases hc : s.ancestral_clustering <;>
    simp [AncestralGenome.get_ancestral_clustering, hc]

/-- C3: on a genome whose taxon is already bound to `t1`, `set_taxon` with
a different node `t2` raises `EvolutionaryConceptError` and leaves the
state, hence the bound taxon, unchanged. -/
theorem C3_set_taxon_conflict (s : GenomeState) (t1 t2 : TreeNode)
    (hb : s.taxon = some t1) (hne : t2.id ≠ t1.id) :
    Genome.set_taxon s (PyTax.node t2) =
      .raised (.evolutionaryConceptError "only one taxon can refers to one genome") s ∧
    s.taxon = some t1 := by
  refine ⟨?_, hb⟩
  simp [Genome.set_taxon, hb, hne]

/-- Witness for C3: a genome bound to node 5 rejects node 6 and stays
bound to node 5. -/
theorem C3_witness :
    Genome.set_taxon { selfId := 0, genes := [], taxon := some ⟨5, "t1"⟩, name := none }
        (PyTax.node ⟨6, "t2"⟩) =
      .raised (.evolutionaryConceptError "only one taxon can refers to one genome")
        { selfId := 0, genes := [], taxon := some ⟨5, "t1"⟩, name := none } ∧
    ({ selfId := 0, genes := [], taxon := some ⟨5, "t1"⟩, name := none } : GenomeState).taxon =
      some ⟨5, "t1"⟩ :=
  C3_set_taxon_conflict _ ⟨5, "t1"⟩ ⟨6, "t2"⟩ rfl (by decide)

/-- C4: with a taxon already bound, `set_taxon` raises exactly when the
new node is a different object from the bound one — identity inequality
(the `id` fields differ), independent of the nodes' payload values. -/
theorem C4_set_taxon_identity (s : GenomeState) (t1 t2 : TreeNode)
    (hb : s.taxon = some t1) :
    (∃ e s1, Genome.set_taxon s (PyTax.node t2) = .raised e s1) ↔ t2.id ≠ t1.id := by
  constructor
  · rintro ⟨e, s1, h⟩ heq
    simp [Genome.set_taxon, hb, heq] at h
  · intro hne
    exact ⟨.evolutionaryConceptError "only one taxon can refers to one genome", s,
      by simp [Genome.set_taxon, hb, hne]⟩

/-- Witness for C4: with node 7 bound, a distinct node 8 carrying the very
same payload value still raises (identity, not value, decides), while
node 7 itself does not raise. -/
theorem C4_witness :
    (∃ e s1,
      Genome.set_taxon { selfId := 0, genes := [], taxon := some ⟨7, "X"⟩, name := none }
        (PyTax.node ⟨8, "X"⟩) = .raised e s1) ∧
    ¬ (∃ e s1,
      Genome.set_taxon { selfId := 0, genes := [], taxon := some ⟨7, "X"⟩, name := none }
        (PyTax.node ⟨7, "X"⟩) = .raised e s1) :=
  ⟨(C4_set_taxon_identity _ ⟨7, "X"⟩ ⟨8, "X"⟩ rfl).mpr (by decide),
   fun h => absurd ((C4_set_taxon_identity _ ⟨7, "X"⟩ ⟨7, "X"⟩ rfl).mp h) (by decide)⟩

/-- Counterexample for C5 as stated ("for every genome ... never raises"):
a genome already bound to node 0 raises `EvolutionaryConceptError` on the
very first `set_taxon` call with node 1, so the double call does raise. -/
theorem C5_counterexample :
    Genome.set_taxon { selfId := 0, genes := [], taxon := some ⟨0, "r"⟩, name := none }
        (PyTax.node ⟨1, "a"⟩) =
      .raised (.evolutionaryConceptError "only one taxon can refers to one genome")
        { selfId := 0, genes := [], taxon := some ⟨0, "r"⟩, name := none } := by
  rfl

/-- C5 (amended): for every genome whose taxon is unbound or already bound
to the same node `t`, calling `set_taxon(t)` and then `set_taxon(t)` again
never raises and leaves `taxon = t`. -/
theorem C5_set_taxon_idempotent (s : GenomeState) (t : TreeNode)
    (hb : s.taxon = none ∨ s.taxon = some t) :
    ∃ s1, Genome.set_taxon s (PyTax.node t) = .ok s1 ∧
      Genome.set_taxon s1 (PyTax.node t) = .ok s1 ∧ s1.taxon = some t := by
  refine ⟨{ s with taxon := some t }, ?_, ?_, rfl⟩
  · rcases hb with hb | hb <;> simp [Genome.set_taxon, hb]
  · simp [Genome.set_taxon]

/-- Witness for C5 (amended) at a fresh genome and node 3. -/
theorem C5_witness :
    ∃ s1, Genome.set_taxon (Genome.init 0) (PyTax.node ⟨3, "n"⟩) = .ok s1 ∧
      Genome.set_taxon s1 (PyTax.node ⟨3, "n"⟩) = .ok s1 ∧ s1.taxon = some ⟨3, "n"⟩ :=
  C5_set_taxon_idempotent (Genome.init 0) ⟨3, "n"⟩ (Or.inl rfl)

/-- C6: `add_gene` on an argument lacking the gene capability raises
`TypeError` carrying the expected capability name and the received type
name, and the post-state is the pre-state itself — in particular `genes`
(and its length) is unchanged, the capability check preceding any
mutation. -/
theorem C6_add_gene_type_error (s : GenomeState) (tn : String) :
    Genome.add_gene s (PyObj.nonGene tn) =
      .raised (.typeError ("expect subclass obj of AbstractGene, got " ++ tn)) s := by
  rfl

/-- C7: `ExtantGenome.get_number_genes` returns `len(genes)` when the
singleton flag is true (which is the Python default), and the number of
genes whose is-singleton predicate is false when the flag is false; both
modes return 0 on an empty gene list. -/
theorem C7_extant_number_genes (s : ExtantGenomeState) :
    ExtantGenome.get_number_genes_default s = s.base.genes.length ∧
    ExtantGenome.get_number_genes s true = s.base.genes.length ∧
    ExtantGenome.get_number_genes s false =
      s.base.genes.countP (fun g => !g.singleton) ∧
    (s.base.genes = [] →
      ExtantGenome.get_number_genes s true = 0 ∧
      ExtantGenome.get_number_genes s false = 0) := by
  have h2 : ExtantGenome.get_number_genes s false =
      s.base.genes.countP (fun g => !g.singleton) := by
    have h := foldl_nonsingleton_count s.base.genes 0
    simpa [ExtantGenome.get_number_genes] using h
  refine ⟨rfl, rfl, h2, fun he => ⟨?_, ?_⟩⟩
  · simp [ExtantGenome.get_number_genes, he]
  · simp [h2, he]

/-- Witness for C7: on genes `[gA, gB, gC]` with only `gB` a singleton,
the default and `singleton=True` counts are 3 and the `singleton=False`
count is 2; on an empty extant genome both modes give 0. -/
theorem C7_witness :
    ExtantGenome.get_number_genes_default wExtant = 3 ∧
    ExtantGenome.get_number_genes wExtant true = 3 ∧
    ExtantGenome.get_number_genes wExtant false = 2 ∧
    (ExtantGenome.init "E" 9606 0).base.genes = [] ∧
    ExtantGenome.get_number_genes (ExtantGenome.init "E" 9606 0) true = 0 ∧
    ExtantGenome.get_number_genes (ExtantGenome.init "E" 9606 0) false = 0 := by
  have h := C7_extant_number_genes wExtant
  have h0 := C7_extant_number_genes (ExtantGenome.init "E" 9606 0)
  exact ⟨h.1, h.2.1, h.2.2.1, rfl, (h0.2.2.2 rfl).1, (h0.2.2.2 rfl).2⟩

/-- C8: `AncestralGenome.get_number_genes` returns `len(genes)`
unconditionally (no singleton flag exists on this variant); consequently,
after any sequence of successful `add_gene` calls it equals the starting
count plus the number of attached genes, and it is 0 when `genes` is
empty. -/
theorem C8_ancestral_number_genes :
    (∀ s : AncestralGenomeState,
      AncestralGenome.get_number_genes s = s.base.genes.length) ∧
    (∀ (s s1 : AncestralGenomeState) (xs : List PyObj), runAddGenes s xs = .ok s1 →
      AncestralGenome.get_number_genes s1 = s.base.genes.length + xs.length) ∧
    (∀ s : AncestralGenomeState, s.base.genes = [] →
      AncestralGenome.get_number_genes s = 0) := by
  refine ⟨fun s => rfl, ?_, ?_⟩
  · intro s s1 xs h
    exact runAddGenes_ok_length xs s s1 h
  · intro s h
    simp [AncestralGenome.get_number_genes, h]

/-- Witness for C8: a fresh ancestral genome counts 0; after successfully
attaching `gA` then `gB` it counts 2. -/
theorem C8_witness :
    AncestralGenome.get_number_genes (AncestralGenome.init 0) = 0 ∧
    AncestralGenome.get_number_genes
      { base := { selfId := 0,
                  genes := [{ gA with genome := some 0 }, { gB with genome := some 0 }],
                  taxon := none, name := none },
        ancestral_clustering := none } = 2 :=
  ⟨C8_ancestral_number_genes.2.2 (AncestralGenome.init 0) rfl,
   C8_ancestral_number_genes.2.1 (AncestralGenome.init 0) _
     [PyObj.gene gA, PyObj.gene gB] rfl⟩

/-- C9: when the gene passes the capability check but its `set_genome`
collaborator call raises, the error propagates with the gene already
appended to `genes` and still there — `add_gene` appends before writing
the back-reference, so the call is not atomic. -/
theorem C9_add_gene_not_atomic (s : GenomeState) (g : AbstractGene)
    (hr : g.setGenomeRaises = true) :
    Genome.add_gene s (PyObj.gene g) =
      .raised .collaboratorError { s with genes := s.genes ++ [g] } ∧
    g ∈ ({ s with genes := s.genes ++ [g] } : GenomeState).genes := by
  constructor
  · simp [Genome.add_gene, hr]
  · simp

/-- Witness for C9: attaching `gRaise` (whose `set_genome` raises) to a
fresh genome propagates the error with `gRaise` in `genes`. -/
theorem C9_witness :
    Genome.add_gene (Genome.init 0) (PyObj.gene gRaise) =
      .raised .collaboratorError
        { Genome.init 0 with genes := (Genome.init 0).genes ++ [gRaise] } ∧
    gRaise ∈ ({ Genome.init 0 with
                genes := (Genome.init 0).genes ++ [gRaise] } : GenomeState).genes :=
  C9_add_gene_not_atomic (Genome.init 0) gRaise rfl

/-- C10: a freshly constructed genome has `name = None`, so `__str__`
yields `None` rather than a string and Python string conversion raises
`TypeError`; string conversion returns the name exactly when a name has
been assigned. -/
theorem C10_fresh_str_faults (i : Nat) :
    (Genome.init i).name = none ∧
    Genome.dunderStr (Genome.init i) = none ∧
    Genome.strConv (Genome.init i) =
      .error (.typeError "str returned non-string (type NoneType)") ∧
    (∀ (s : GenomeState) (n : String), s.name = some n → Genome.strConv s = .ok n) := by
  refine ⟨rfl, rfl, rfl, ?_⟩
  intro s n h
  simp [Genome.strConv, Genome.dunderStr, h]

/-- Witness for C10: string conversion faults on the fresh genome 0 and
succeeds once a name is set. -/
theorem C10_witness :
    Genome.strConv (Genome.init 0) =
      .error (.typeError "str returned non-string (type NoneType)") ∧
    Genome.strConv { Genome.init 0 with name := some "G" } = .ok "G" :=
  ⟨(C10_fresh_str_faults 0).2.2.1,
   (C10_fresh_str_faults 0).2.2.2 { Genome.init 0 with name := some "G" } "G" rfl⟩
